import Mathlib

/-
Verification of the `diff_gaussian_rasterization` Python bridge
(src/diff_gaussian_rasterization/__init__.py) against its specification.

Shallow embedding notes.
Tensors are modelled as a device tag plus an integer payload list: the bridge
never computes on tensor contents, only marshals them, so the payload stands in
for arbitrary tensor data and gives decidable equality.  Python floats are
likewise never computed on by the bridge, so they are modelled by an opaque
scalar type with decidable equality (Int).  The native entry points
(_C.rasterize_gaussians, _C.rasterize_gaussians_backward) and torch.save are
modelled as function parameters returning Except (a Python call that either
returns a value or raises).  Side effects (invoking the native entry point,
invoking torch.save, printing a diagnostic) are recorded in an effect trace
returned alongside the result.
-/

namespace DGR

inductive Device
  | cpu
  | cuda (idx : Nat)
deriving DecidableEq

structure Tensor where
  device : Device
  data : List Int
deriving DecidableEq

/-- Model of `Tensor.cpu()`: moves the tensor to host memory. -/
def Tensor.toCpu (t : Tensor) : Tensor :=
  { t with device := Device.cpu }

/-- Model of `Tensor.clone()`: a deep copy; value semantics make it the identity. -/
def Tensor.clone (t : Tensor) : Tensor := t

/-- Python floats are only passed through by the bridge, never computed on. -/
abbrev PyFloat := Int

/-- Mirror of the `GaussianRasterizationSettings` NamedTuple. -/
structure GaussianRasterizationSettings where
  image_height : Int
  image_width : Int
  tanfovx : PyFloat
  tanfovy : PyFloat
  bg : Tensor
  scale_modifier : PyFloat
  cov_offset : PyFloat
  viewmatrix : Tensor
  projmatrix : Tensor
  sh_degree : Int
  prefiltered : Bool
  debug : Bool
deriving DecidableEq

/-- One element of the heterogeneous positional argument tuple handed to the
native entry points. -/
inductive NativeArg
  | tensor (t : Tensor)
  | float (x : PyFloat)
  | int (n : Int)
  | bool (b : Bool)
deriving DecidableEq

/-- Mirror of `cpu_deep_copy_tuple`: tensors are copied to host, other items
pass through unchanged. -/
def cpu_deep_copy_tuple (input_tuple : List NativeArg) : List NativeArg :=
  input_tuple.map fun item =>
    match item with
    | NativeArg.tensor t => NativeArg.tensor t.toCpu.clone
    | other => other

/-- Python exceptions observable at the bridge boundary. -/
inductive PyErr
  | exc (msg : String)
  | native (code : Nat)
  | saveFail (code : Nat)
deriving DecidableEq

/-- The facade's color-pair input-contract violation (message as in source,
including its typo). -/
def colorContractError : PyErr :=
  PyErr.exc "Please provide excatly one of either SHs or precomputed colors!"

/-- The facade's covariance-pair input-contract violation. -/
def covContractError : PyErr :=
  PyErr.exc "Please provide exactly one of either scale/rotation pair or precomputed 3D covariance!"

def isInputContractViolation (e : PyErr) : Prop :=
  e = colorContractError ∨ e = covContractError

/-- Observable side effects of one bridge call, in order of occurrence. -/
inductive Effect
  | nativeFwdCall (args : List NativeArg)
  | nativeBwdCall (args : List NativeArg)
  | saveFile (filename : String) (args : List NativeArg)
  | printMsg (s : String)
deriving DecidableEq

/-- The eleven positional inputs of `_RasterizeGaussians.forward` (after `ctx`). -/
structure FwdInput where
  means3D : Tensor
  means2D : Tensor
  sh : Tensor
  colors_precomp : Tensor
  opacities : Tensor
  scales : Tensor
  rotations : Tensor
  cov3Ds_precomp : Tensor
  camerapos : Tensor
  camerarot : Tensor
  raster_settings : GaussianRasterizationSettings
deriving DecidableEq

/-- The 7-tuple returned by the native `_C.rasterize_gaussians`. -/
structure NativeFwdOut where
  num_rendered : Int
  color : Tensor
  radii : Tensor
  geomBuffer : Tensor
  binningBuffer : Tensor
  imgBuffer : Tensor
  depth : Tensor
deriving DecidableEq

/-- The triple `(color, radii, depth)` returned by forward. -/
structure FwdOutput where
  color : Tensor
  radii : Tensor
  depth : Tensor
deriving DecidableEq

/-- The autograd context state captured by forward for backward:
`ctx.raster_settings`, `ctx.num_rendered`, and the tensors passed to
`ctx.save_for_backward` in their saved order. -/
structure Ctx where
  raster_settings : GaussianRasterizationSettings
  num_rendered : Int
  colors_precomp : Tensor
  means3D : Tensor
  scales : Tensor
  rotations : Tensor
  cov3Ds_precomp : Tensor
  radii : Tensor
  sh : Tensor
  geomBuffer : Tensor
  binningBuffer : Tensor
  imgBuffer : Tensor
  camerapos : Tensor
  camerarot : Tensor
  depth : Tensor
deriving DecidableEq

/-- The positional argument tuple built by `_RasterizeGaussians.forward` for
`_C.rasterize_gaussians`, in source order. -/
def fwdArgs (i : FwdInput) : List NativeArg :=
  [ NativeArg.tensor i.raster_settings.bg,
    NativeArg.tensor i.means3D,
    NativeArg.tensor i.colors_precomp,
    NativeArg.tensor i.opacities,
    NativeArg.tensor i.scales,
    NativeArg.tensor i.rotations,
    NativeArg.float i.raster_settings.scale_modifier,
    NativeArg.float i.raster_settings.cov_offset,
    NativeArg.tensor i.cov3Ds_precomp,
    NativeArg.tensor i.raster_settings.viewmatrix,
    NativeArg.tensor i.raster_settings.projmatrix,
    NativeArg.float i.raster_settings.tanfovx,
    NativeArg.float i.raster_settings.tanfovy,
    NativeArg.int i.raster_settings.image_height,
    NativeArg.int i.raster_settings.image_width,
    NativeArg.tensor i.sh,
    NativeArg.int i.raster_settings.sh_degree,
    NativeArg.tensor i.camerapos,
    NativeArg.bool i.raster_settings.prefiltered,
    NativeArg.bool i.raster_settings.debug ]

/-- The state retained on `ctx` by forward (settings, num_rendered, and
`save_for_backward` tensors in source order). -/
def mkCtx (i : FwdInput) (o : NativeFwdOut) : Ctx :=
  { raster_settings := i.raster_settings
    num_rendered := o.num_rendered
    colors_precomp := i.colors_precomp
    means3D := i.means3D
    scales := i.scales
    rotations := i.rotations
    cov3Ds_precomp := i.cov3Ds_precomp
    radii := o.radii
    sh := i.sh
    geomBuffer := o.geomBuffer
    binningBuffer := o.binningBuffer
    imgBuffer := o.imgBuffer
    camerapos := i.camerapos
    camerarot := i.camerarot
    depth := o.depth }

def fwdDiagnosticMsg : String :=
  "\nAn error occured in forward. Please forward snapshot_fw.dump for debugging."

def bwdDiagnosticMsg : String :=
  "\nAn error occured in backward. Writing snapshot_bw.dump for debugging.\n"

/-- Mirror of `_RasterizeGaussians.forward`.  `nativeFwd` models
`_C.rasterize_gaussians` and `torchSave` models `torch.save` (both may raise).
Returns the result (the captured ctx and the `(color, radii, depth)` triple, or
the raised exception) together with the trace of observable effects. -/
def RasterizeGaussians.forward
    (nativeFwd : List NativeArg → Except PyErr NativeFwdOut)
    (torchSave : String → List NativeArg → Except PyErr Unit)
    (i : FwdInput) : Except PyErr (Ctx × FwdOutput) × List Effect :=
  let args := fwdArgs i
  if i.raster_settings.debug then
    let cpu_args := cpu_deep_copy_tuple args
    match nativeFwd args with
    | Except.ok o =>
        (Except.ok (mkCtx i o, ⟨o.color, o.radii, o.depth⟩),
         [Effect.nativeFwdCall args])
    | Except.error ex =>
        match torchSave "snapshot_fw.dump" cpu_args with
        | Except.ok _ =>
            (Except.error ex,
             [Effect.nativeFwdCall args,
              Effect.saveFile "snapshot_fw.dump" cpu_args,
              Effect.printMsg fwdDiagnosticMsg])
        | Except.error esave =>
            (Except.error esave,
             [Effect.nativeFwdCall args,
              Effect.saveFile "snapshot_fw.dump" cpu_args])
  else
    match nativeFwd args with
    | Except.ok o =>
        (Except.ok (mkCtx i o, ⟨o.color, o.radii, o.depth⟩),
         [Effect.nativeFwdCall args])
    | Except.error ex =>
        (Except.error ex, [Effect.nativeFwdCall args])

/-- The 9-tuple returned by the native `_C.rasterize_gaussians_backward`,
fields in its destructuring order. -/
structure NativeBwdOut where
  grad_means2D : Tensor
  grad_colors_precomp : Tensor
  grad_opacities : Tensor
  grad_means3D : Tensor
  grad_cov3Ds_precomp : Tensor
  grad_sh : Tensor
  grad_scales : Tensor
  grad_rotations : Tensor
  grad_camerarot : Tensor
deriving DecidableEq

/-- The positional argument tuple built by `_RasterizeGaussians.backward` for
`_C.rasterize_gaussians_backward`, in source order.  It is a function of the
saved ctx and the incoming image and depth gradients only. -/
def bwdArgs (ctx : Ctx) (grad_out_color grad_out_depth : Tensor) : List NativeArg :=
  [ NativeArg.tensor ctx.raster_settings.bg,
    NativeArg.tensor ctx.means3D,
    NativeArg.tensor ctx.radii,
    NativeArg.tensor ctx.colors_precomp,
    NativeArg.tensor ctx.scales,
    NativeArg.tensor ctx.rotations,
    NativeArg.float ctx.raster_settings.scale_modifier,
    NativeArg.float ctx.raster_settings.cov_offset,
    NativeArg.tensor ctx.cov3Ds_precomp,
    NativeArg.tensor ctx.raster_settings.viewmatrix,
    NativeArg.tensor ctx.raster_settings.projmatrix,
    NativeArg.float ctx.raster_settings.tanfovx,
    NativeArg.float ctx.raster_settings.tanfovy,
    NativeArg.tensor grad_out_color,
    NativeArg.tensor grad_out_depth,
    NativeArg.tensor ctx.sh,
    NativeArg.int ctx.raster_settings.sh_degree,
    NativeArg.tensor ctx.camerapos,
    NativeArg.tensor ctx.geomBuffer,
    NativeArg.int ctx.num_rendered,
    NativeArg.tensor ctx.binningBuffer,
    NativeArg.tensor ctx.imgBuffer,
    NativeArg.bool ctx.raster_settings.debug ]

/-- The 11-entry gradient tuple `grads` assembled by backward, aligned with the
eleven forward inputs `(means3D, means2D, sh, colors_precomp, opacities,
scales, rotations, cov3Ds_precomp, camerapos, camerarot, raster_settings)`;
`none` models Python `None`. -/
def gradsTuple (o : NativeBwdOut) : List (Option Tensor) :=
  [ some o.grad_means3D,
    some o.grad_means2D,
    some o.grad_sh,
    some o.grad_colors_precomp,
    some o.grad_opacities,
    some o.grad_scales,
    some o.grad_rotations,
    some o.grad_cov3Ds_precomp,
    none,
    some o.grad_camerarot,
    none ]

/-- Mirror of `_RasterizeGaussians.backward`.  `grad_out_radii` is accepted but
never read, exactly as in the source. -/
def RasterizeGaussians.backward
    (nativeBwd : List NativeArg → Except PyErr NativeBwdOut)
    (torchSave : String → List NativeArg → Except PyErr Unit)
    (ctx : Ctx) (grad_out_color grad_out_radii grad_out_depth : Tensor) :
    Except PyErr (List (Option Tensor)) × List Effect :=
  let args := bwdArgs ctx grad_out_color grad_out_depth
  if ctx.raster_settings.debug then
    let cpu_args := cpu_deep_copy_tuple args
    match nativeBwd args with
    | Except.ok o =>
        (Except.ok (gradsTuple o), [Effect.nativeBwdCall args])
    | Except.error ex =>
        match torchSave "snapshot_bw.dump" cpu_args with
        | Except.ok _ =>
            (Except.error ex,
             [Effect.nativeBwdCall args,
              Effect.saveFile "snapshot_bw.dump" cpu_args,
              Effect.printMsg bwdDiagnosticMsg])
        | Except.error esave =>
            (Except.error esave,
             [Effect.nativeBwdCall args,
              Effect.saveFile "snapshot_bw.dump" cpu_args])
  else
    match nativeBwd args with
    | Except.ok o =>
        (Except.ok (gradsTuple o), [Effect.nativeBwdCall args])
    | Except.error ex =>
        (Except.error ex, [Effect.nativeBwdCall args])

/-- The optional-bearing inputs of the facade `GaussianRasterizer.forward`
(`none` models an omitted argument / Python `None`). -/
structure FacadeInput where
  means3D : Tensor
  means2D : Tensor
  opacities : Tensor
  shs : Option Tensor
  colors_precomp : Option Tensor
  scales : Option Tensor
  rotations : Option Tensor
  cov3D_precomp : Option Tensor
  camerapos : Option Tensor
  camerarot : Option Tensor
deriving DecidableEq

/-- Model of `torch.Tensor([])`, the explicit empty-sentinel tensor. -/
def emptyTensor : Tensor :=
  { device := Device.cpu, data := [] }

/-- The validation and `None`-substitution stage of `GaussianRasterizer.forward`
(source lines 308-337): mutual-exclusivity checks in source order, then each
omitted optional replaced by `torch.Tensor([])`. -/
def GaussianRasterizer.validateAndNormalize
    (raster_settings : GaussianRasterizationSettings) (i : FacadeInput) :
    Except PyErr FwdInput :=
  if (i.shs.isNone && i.colors_precomp.isNone)
      || (i.shs.isSome && i.colors_precomp.isSome) then
    Except.error colorContractError
  else if ((i.scales.isNone || i.rotations.isNone) && i.cov3D_precomp.isNone)
      || ((i.scales.isSome || i.rotations.isSome) && i.cov3D_precomp.isSome) then
    Except.error covContractError
  else
    Except.ok
      { means3D := i.means3D
        means2D := i.means2D
        sh := i.shs.getD emptyTensor
        colors_precomp := i.colors_precomp.getD emptyTensor
        opacities := i.opacities
        scales := i.scales.getD emptyTensor
        rotations := i.rotations.getD emptyTensor
        cov3Ds_precomp := i.cov3D_precomp.getD emptyTensor
        camerapos := i.camerapos.getD emptyTensor
        camerarot := i.camerarot.getD emptyTensor
        raster_settings := raster_settings }

/-- Mirror of the facade `GaussianRasterizer.forward`: validate and normalize,
then delegate to the differentiable operator via `rasterize_gaussians`. -/
def GaussianRasterizer.forward
    (nativeFwd : List NativeArg → Except PyErr NativeFwdOut)
    (torchSave : String → List NativeArg → Except PyErr Unit)
    (raster_settings : GaussianRasterizationSettings) (i : FacadeInput) :
    Except PyErr (Ctx × FwdOutput) × List Effect :=
  match GaussianRasterizer.validateAndNormalize raster_settings i with
  | Except.error e => (Except.error e, [])
  | Except.ok fi => RasterizeGaussians.forward nativeFwd torchSave fi

/-- Every tensor in the tuple lives on the host (cpu). -/
def hostResident (args : List NativeArg) : Prop :=
  ∀ a ∈ args, ∀ t : Tensor, a = NativeArg.tensor t → t.device = Device.cpu

theorem cpu_deep_copy_tuple_hostResident (args : List NativeArg) :
    hostResident (cpu_deep_copy_tuple args) := by
  intro a ha t hat
  subst hat
  rcases List.mem_map.mp ha with ⟨b, _, hb⟩
  cases b with
  | tensor tb =>
      simp [Tensor.toCpu, Tensor.clone] at hb
      rw [← hb]
  | float x => simp at hb
  | int n => simp at hb
  | bool bb => simp at hb

/-- Replace the settings' debug flag, all other inputs unchanged. -/
def setDebug (i : FwdInput) (b : Bool) : FwdInput :=
  { i with raster_settings := { i.raster_settings with debug := b } }

/- Concrete sample values used by witnesses and counterexamples. -/

def sampleTensor (n : Int) : Tensor :=
  { device := Device.cuda 0, data := [n] }

def sampleSettings (debug : Bool) : GaussianRasterizationSettings :=
  { image_height := 4
    image_width := 5
    tanfovx := 1
    tanfovy := 2
    bg := sampleTensor 100
    scale_modifier := 3
    cov_offset := 4
    viewmatrix := sampleTensor 101
    projmatrix := sampleTensor 102
    sh_degree := 2
    prefiltered := false
    debug := debug }

def sampleFwdInput (debug : Bool) : FwdInput :=
  { means3D := sampleTensor 1
    means2D := sampleTensor 2
    sh := sampleTensor 3
    colors_precomp := sampleTensor 4
    opacities := sampleTensor 5
    scales := sampleTensor 6
    rotations := sampleTensor 7
    cov3Ds_precomp := sampleTensor 8
    camerapos := sampleTensor 9
    camerarot := sampleTensor 10
    raster_settings := sampleSettings debug }

def sampleNativeFwdOut : NativeFwdOut :=
  { num_rendered := 42
    color := sampleTensor 20
    radii := sampleTensor 21
    geomBuffer := sampleTensor 22
    binningBuffer := sampleTensor 23
    imgBuffer := sampleTensor 24
    depth := sampleTensor 25 }

def sampleNativeBwdOut : NativeBwdOut :=
  { grad_means2D := sampleTensor 30
    grad_colors_precomp := sampleTensor 31
    grad_opacities := sampleTensor 32
    grad_means3D := sampleTensor 33
    grad_cov3Ds_precomp := sampleTensor 34
    grad_sh := sampleTensor 35
    grad_scales := sampleTensor 36
    grad_rotations := sampleTensor 37
    grad_camerarot := sampleTensor 38 }

def sampleCtx : Ctx := mkCtx (sampleFwdInput true) sampleNativeFwdOut

def sampleCtxNoDebug : Ctx := mkCtx (sampleFwdInput false) sampleNativeFwdOut

def okNativeFwd : List NativeArg → Except PyErr NativeFwdOut :=
  fun _ => Except.ok sampleNativeFwdOut

def okNativeBwd : List NativeArg → Except PyErr NativeBwdOut :=
  fun _ => Except.ok sampleNativeBwdOut

def failNativeFwd : List NativeArg → Except PyErr NativeFwdOut :=
  fun _ => Except.error (PyErr.native 3)

def failNativeBwd : List NativeArg → Except PyErr NativeBwdOut :=
  fun _ => Except.error (PyErr.native 4)

def okSave : String → List NativeArg → Except PyErr Unit :=
  fun _ _ => Except.ok ()

def failSave : String → List NativeArg → Except PyErr Unit :=
  fun _ _ => Except.error (PyErr.saveFail 7)

/-- A valid facade input: SH supplied (color precomp omitted), scale and
rotation supplied (covariance precomp omitted), camera extras omitted. -/
def facadeInputBase : FacadeInput :=
  { means3D := sampleTensor 1
    means2D := sampleTensor 2
    opacities := sampleTensor 5
    shs := some (sampleTensor 3)
    colors_precomp := none
    scales := some (sampleTensor 6)
    rotations := some (sampleTensor 7)
    cov3D_precomp := none
    camerapos := none
    camerarot := none }

/-- Claim C8: the backward pass ignores the incoming radii gradient.  Two
backward invocations on the same saved forward state that differ only in the
`grad_out_radii` argument have identical observable behaviour: the native
backward call receives identical arguments (the effect trace coincides) and
the returned gradient tuple is identical (the full result coincides). -/
theorem C8_backward_ignores_radii_gradient
    (nativeBwd : List NativeArg → Except PyErr NativeBwdOut)
    (torchSave : String → List NativeArg → Except PyErr Unit)
    (ctx : Ctx) (grad_out_color r1 r2 grad_out_depth : Tensor) :
    RasterizeGaussians.backward nativeBwd torchSave ctx grad_out_color r1 grad_out_depth =
      RasterizeGaussians.backward nativeBwd torchSave ctx grad_out_color r2 grad_out_depth := rfl

/-- Claim C6: forward passes the native rasterize entry point exactly the
20-element argument tuple (background, means3D, color representation,
opacities, scales, rotations, scale modifier, covariance offset, covariance
representation, view matrix, projection matrix, tan-fov-x, tan-fov-y, image
height, image width, SH tensor, SH degree, camera position, prefiltered flag,
debug flag) in that order — witnessed by the native-call effect at the head of
every trace — and destructures the native 7-tuple result as
(num_rendered, color, radii, geomBuffer, binningBuffer, imgBuffer, depth),
returning (color, radii, depth) and saving the rest on the ctx. -/
theorem C6_forward_native_marshaling
    (nativeFwd : List NativeArg → Except PyErr NativeFwdOut)
    (torchSave : String → List NativeArg → Except PyErr Unit)
    (i : FwdInput) :
    fwdArgs i =
      [ NativeArg.tensor i.raster_settings.bg,
        NativeArg.tensor i.means3D,
        NativeArg.tensor i.colors_precomp,
        NativeArg.tensor i.opacities,
        NativeArg.tensor i.scales,
        NativeArg.tensor i.rotations,
        NativeArg.float i.raster_settings.scale_modifier,
        NativeArg.float i.raster_settings.cov_offset,
        NativeArg.tensor i.cov3Ds_precomp,
        NativeArg.tensor i.raster_settings.viewmatrix,
        NativeArg.tensor i.raster_settings.projmatrix,
        NativeArg.float i.raster_settings.tanfovx,
        NativeArg.float i.raster_settings.tanfovy,
        NativeArg.int i.raster_settings.image_height,
        NativeArg.int i.raster_settings.image_width,
        NativeArg.tensor i.sh,
        NativeArg.int i.raster_settings.sh_degree,
        NativeArg.tensor i.camerapos,
        NativeArg.bool i.raster_settings.prefiltered,
        NativeArg.bool i.raster_settings.debug ]
    ∧ (RasterizeGaussians.forward nativeFwd torchSave i).2.head? =
        some (Effect.nativeFwdCall (fwdArgs i))
    ∧ (∀ o : NativeFwdOut, nativeFwd (fwdArgs i) = Except.ok o →
        RasterizeGaussians.forward nativeFwd torchSave i =
          (Except.ok
            ({ raster_settings := i.raster_settings
               num_rendered := o.num_rendered
               colors_precomp := i.colors_precomp
               means3D := i.means3D
               scales := i.scales
               rotations := i.rotations
               cov3Ds_precomp := i.cov3Ds_precomp
               radii := o.radii
               sh := i.sh
               geomBuffer := o.geomBuffer
               binningBuffer := o.binningBuffer
               imgBuffer := o.imgBuffer
               camerapos := i.camerapos
               camerarot := i.camerarot
               depth := o.depth },
             { color := o.color, radii := o.radii, depth := o.depth }),
           [Effect.nativeFwdCall (fwdArgs i)])) := by
  refine ⟨rfl, ?_, ?_⟩
  · unfold RasterizeGaussians.forward
    cases hb : i.raster_settings.debug <;>
      cases hn : nativeFwd (fwdArgs i) <;>
        simp [hb, hn]
    cases hs : torchSave "snapshot_fw.dump" (cpu_deep_copy_tuple (fwdArgs i)) <;>
      simp [hs]
  · intro o ho
    unfold RasterizeGaussians.forward
    cases hb : i.raster_settings.debug <;> simp [hb, ho, mkCtx]

/-- Claim C7: backward passes the native backward entry point exactly the
23-element argument tuple built from the state saved at forward plus the
incoming image and depth gradients (the radii gradient appears nowhere), in
source order, and destructures the native 9-tuple result as gradients for
(2D-position, color representation, opacity, means, covariance representation,
SH tensor, scale, rotation, camera rotation). -/
theorem C7_backward_native_marshaling
    (nativeBwd : List NativeArg → Except PyErr NativeBwdOut)
    (torchSave : String → List NativeArg → Except PyErr Unit)
    (ctx : Ctx) (grad_out_color grad_out_radii grad_out_depth : Tensor) :
    bwdArgs ctx grad_out_color grad_out_depth =
      [ NativeArg.tensor ctx.raster_settings.bg,
        NativeArg.tensor ctx.means3D,
        NativeArg.tensor ctx.radii,
        NativeArg.tensor ctx.colors_precomp,
        NativeArg.tensor ctx.scales,
        NativeArg.tensor ctx.rotations,
        NativeArg.float ctx.raster_settings.scale_modifier,
        NativeArg.float ctx.raster_settings.cov_offset,
        NativeArg.tensor ctx.cov3Ds_precomp,
        NativeArg.tensor ctx.raster_settings.viewmatrix,
        NativeArg.tensor ctx.raster_settings.projmatrix,
        NativeArg.float ctx.raster_settings.tanfovx,
        NativeArg.float ctx.raster_settings.tanfovy,
        NativeArg.tensor grad_out_color,
        NativeArg.tensor grad_out_depth,
        NativeArg.tensor ctx.sh,
        NativeArg.int ctx.raster_settings.sh_degree,
        NativeArg.tensor ctx.camerapos,
        NativeArg.tensor ctx.geomBuffer,
        NativeArg.int ctx.num_rendered,
        NativeArg.tensor ctx.binningBuffer,
        NativeArg.tensor ctx.imgBuffer,
        NativeArg.bool ctx.raster_settings.debug ]
    ∧ (RasterizeGaussians.backward nativeBwd torchSave ctx
        grad_out_color grad_out_radii grad_out_depth).2.head? =
        some (Effect.nativeBwdCall (bwdArgs ctx grad_out_color grad_out_depth))
    ∧ (∀ o : NativeBwdOut,
        nativeBwd (bwdArgs ctx grad_out_color grad_out_depth) = Except.ok o →
        RasterizeGaussians.backward nativeBwd torchSave ctx
          grad_out_color grad_out_radii grad_out_depth =
          (Except.ok (gradsTuple o),
           [Effect.nativeBwdCall (bwdArgs ctx grad_out_color grad_out_depth)])) := by
  refine ⟨rfl, ?_, ?_⟩
  · unfold RasterizeGaussians.backward
    cases hb : ctx.raster_settings.debug <;>
      cases hn : nativeBwd (bwdArgs ctx grad_out_color grad_out_depth) <;>
        simp [hb, hn]
    cases hs : torchSave "snapshot_bw.dump"
        (cpu_deep_copy_tuple (bwdArgs ctx grad_out_color grad_out_depth)) <;>
      simp [hs]
  · intro o ho
    unfold RasterizeGaussians.backward
    cases hb : ctx.raster_settings.debug <;> simp [hb, ho]

/-- Witness for C6 at a concrete input: the native forward succeeds and forward
returns the destructured triple with the single native-call effect. -/
theorem C6_forward_native_marshaling_witness :
    RasterizeGaussians.forward okNativeFwd okSave (sampleFwdInput false) =
      (Except.ok (mkCtx (sampleFwdInput false) sampleNativeFwdOut,
        { color := sampleTensor 20, radii := sampleTensor 21, depth := sampleTensor 25 }),
       [Effect.nativeFwdCall (fwdArgs (sampleFwdInput false))]) :=
  (C6_forward_native_marshaling okNativeFwd okSave (sampleFwdInput false)).2.2
    sampleNativeFwdOut rfl

/-- Witness for C7 at a concrete input: the native backward succeeds and
backward returns the assembled gradient tuple with the single native-call
effect. -/
theorem C7_backward_native_marshaling_witness :
    RasterizeGaussians.backward okNativeBwd okSave sampleCtx
      (sampleTensor 50) (sampleTensor 51) (sampleTensor 52) =
      (Except.ok (gradsTuple sampleNativeBwdOut),
       [Effect.nativeBwdCall (bwdArgs sampleCtx (sampleTensor 50) (sampleTensor 52))]) :=
  (C7_backward_native_marshaling okNativeBwd okSave sampleCtx
    (sampleTensor 50) (sampleTensor 51) (sampleTensor 52)).2.2
    sampleNativeBwdOut rfl

/-- Claim C1 is false as stated: at this concrete backward invocation the
returned gradient tuple carries, at index 1 (the slot aligned with the
2D-position placeholder input `means2D`), the native 2D-position gradient
`some (sampleTensor 30)` — not the `None` sentinel the claim requires for
`means2D`. -/
theorem C1_counterexample :
    (RasterizeGaussians.backward okNativeBwd okSave sampleCtx
      (sampleTensor 60) (sampleTensor 61) (sampleTensor 62)).1 =
      Except.ok (gradsTuple sampleNativeBwdOut)
    ∧ (gradsTuple sampleNativeBwdOut).get? 1 = some (some (sampleTensor 30))
    ∧ some (sampleTensor 30) ≠ (none : Option Tensor) :=
  ⟨rfl, rfl, by simp⟩

/-- Claim C1 amended: for every backward invocation whose native call succeeds,
the returned gradient tuple is aligned with the eleven forward inputs
(means3D, means2D, sh, colors_precomp, opacities, scales, rotations,
cov3Ds_precomp, camerapos, camerarot, raster_settings) in that order, but the
`None` sentinels sit at the camera-position slot (index 8) and the settings
slot (index 10); the 2D-position placeholder slot (index 1) carries the native
2D-position gradient, not `None`.  This holds for an arbitrary saved ctx,
hence regardless of which optional branch was used on forward. -/
theorem C1_amended_gradient_alignment
    (nativeBwd : List NativeArg → Except PyErr NativeBwdOut)
    (torchSave : String → List NativeArg → Except PyErr Unit)
    (ctx : Ctx) (grad_out_color grad_out_radii grad_out_depth : Tensor)
    (o : NativeBwdOut)
    (h : nativeBwd (bwdArgs ctx grad_out_color grad_out_depth) = Except.ok o) :
    (RasterizeGaussians.backward nativeBwd torchSave ctx
      grad_out_color grad_out_radii grad_out_depth).1 =
      Except.ok
        [ some o.grad_means3D,
          some o.grad_means2D,
          some o.grad_sh,
          some o.grad_colors_precomp,
          some o.grad_opacities,
          some o.grad_scales,
          some o.grad_rotations,
          some o.grad_cov3Ds_precomp,
          none,
          some o.grad_camerarot,
          none ] := by
  unfold RasterizeGaussians.backward
  cases hb : ctx.raster_settings.debug <;> simp [hb, h, gradsTuple]

/-- Witness for the amended C1 at a concrete input. -/
theorem C1_amended_gradient_alignment_witness :
    (RasterizeGaussians.backward okNativeBwd okSave sampleCtx
      (sampleTensor 60) (sampleTensor 61) (sampleTensor 62)).1 =
      Except.ok
        [ some (sampleTensor 33),
          some (sampleTensor 30),
          some (sampleTensor 35),
          some (sampleTensor 31),
          some (sampleTensor 32),
          some (sampleTensor 36),
          some (sampleTensor 37),
          some (sampleTensor 34),
          none,
          some (sampleTensor 38),
          none ] :=
  C1_amended_gradient_alignment okNativeBwd okSave sampleCtx
    (sampleTensor 60) (sampleTensor 61) (sampleTensor 62) sampleNativeBwdOut rfl

/-- Claim C2: in `GaussianRasterizer.forward`, supplying both SH and
precomputed colors, or neither, raises the color input-contract violation with
an empty effect trace (so before any native call); and supplying both the
scale/rotation alternative and precomputed covariance, or none of the three,
raises an input-contract violation with an empty effect trace. -/
theorem C2_exclusivity_validation
    (nativeFwd : List NativeArg → Except PyErr NativeFwdOut)
    (torchSave : String → List NativeArg → Except PyErr Unit)
    (rs : GaussianRasterizationSettings) (i : FacadeInput) :
    (((i.shs = none ∧ i.colors_precomp = none) ∨
        (i.shs ≠ none ∧ i.colors_precomp ≠ none)) →
      GaussianRasterizer.forward nativeFwd torchSave rs i =
        (Except.error colorContractError, []))
    ∧ (((i.scales ≠ none ∧ i.rotations ≠ none ∧ i.cov3D_precomp ≠ none) ∨
        (i.scales = none ∧ i.rotations = none ∧ i.cov3D_precomp = none)) →
      ∃ e : PyErr, isInputContractViolation e ∧
        GaussianRasterizer.forward nativeFwd torchSave rs i =
          (Except.error e, [])) := by
  constructor
  · rintro (⟨h1, h2⟩ | ⟨h1, h2⟩) <;>
      simp [GaussianRasterizer.forward, GaussianRasterizer.validateAndNormalize,
        h1, h2, Option.isSome_iff_ne_none, Option.isNone_iff_eq_none]
  · intro h
    by_cases hc : ((i.shs.isNone && i.colors_precomp.isNone)
        || (i.shs.isSome && i.colors_precomp.isSome)) = true
    · exact ⟨colorContractError, Or.inl rfl,
        by simp [GaussianRasterizer.forward, GaussianRasterizer.validateAndNormalize, hc]⟩
    · refine ⟨covContractError, Or.inr rfl, ?_⟩
      rcases h with ⟨h1, h2, h3⟩ | ⟨h1, h2, h3⟩ <;>
        simp [GaussianRasterizer.forward, GaussianRasterizer.validateAndNormalize,
          hc, h1, h2, h3, Option.isSome_iff_ne_none, Option.isNone_iff_eq_none]

/-- A facade input with both color alternatives supplied. -/
def facadeBothColors : FacadeInput :=
  { facadeInputBase with colors_precomp := some (sampleTensor 4) }

/-- A facade input with both covariance alternatives supplied. -/
def facadeBothCov : FacadeInput :=
  { facadeInputBase with cov3D_precomp := some (sampleTensor 8) }

/-- Witness for C2 at concrete inputs: both color alternatives supplied raises
the color violation; scale, rotation and precomputed covariance all supplied
raises an input-contract violation; both with empty traces. -/
theorem C2_exclusivity_validation_witness :
    (GaussianRasterizer.forward okNativeFwd okSave (sampleSettings false) facadeBothColors =
      (Except.error colorContractError, []))
    ∧ (∃ e : PyErr, isInputContractViolation e ∧
        GaussianRasterizer.forward okNativeFwd okSave (sampleSettings false) facadeBothCov =
          (Except.error e, [])) :=
  ⟨(C2_exclusivity_validation okNativeFwd okSave (sampleSettings false) facadeBothColors).1
      (Or.inr ⟨by simp [facadeBothColors, facadeInputBase],
               by simp [facadeBothColors, facadeInputBase]⟩),
   (C2_exclusivity_validation okNativeFwd okSave (sampleSettings false) facadeBothCov).2
      (Or.inl ⟨by simp [facadeBothCov, facadeInputBase],
               by simp [facadeBothCov, facadeInputBase],
               by simp [facadeBothCov, facadeInputBase]⟩)⟩

/-- Claim C10: a call that supplies exactly one of scales and rotations is
rejected with an input-contract violation and an empty effect trace (no native
call), whatever `cov3D_precomp` is; and whenever the color pair is well-formed
(exactly one of SH / precomputed colors supplied), the violation raised is
precisely the covariance one — both when `cov3D_precomp` is absent (counted as
no covariance alternative) and when it is present (counted as both). -/
theorem C10_half_pair_rejected
    (nativeFwd : List NativeArg → Except PyErr NativeFwdOut)
    (torchSave : String → List NativeArg → Except PyErr Unit)
    (rs : GaussianRasterizationSettings) (i : FacadeInput)
    (h : (i.scales ≠ none ∧ i.rotations = none) ∨
         (i.scales = none ∧ i.rotations ≠ none)) :
    (∃ e : PyErr, isInputContractViolation e ∧
      GaussianRasterizer.forward nativeFwd torchSave rs i =
        (Except.error e, []))
    ∧ (((i.shs ≠ none ∧ i.colors_precomp = none) ∨
        (i.shs = none ∧ i.colors_precomp ≠ none)) →
      GaussianRasterizer.forward nativeFwd torchSave rs i =
        (Except.error covContractError, [])) := by
  constructor
  · by_cases hc : ((i.shs.isNone && i.colors_precomp.isNone)
        || (i.shs.isSome && i.colors_precomp.isSome)) = true
    · exact ⟨colorContractError, Or.inl rfl,
        by simp [GaussianRasterizer.forward, GaussianRasterizer.validateAndNormalize, hc]⟩
    · refine ⟨covContractError, Or.inr rfl, ?_⟩
      rcases h with ⟨h1, h2⟩ | ⟨h1, h2⟩ <;>
        cases hcov : i.cov3D_precomp <;>
          simp [GaussianRasterizer.forward, GaussianRasterizer.validateAndNormalize,
            hc, h1, h2, hcov, Option.isSome_iff_ne_none, Option.isNone_iff_eq_none]
  · rintro (⟨hc1, hc2⟩ | ⟨hc1, hc2⟩) <;>
      rcases h with ⟨h1, h2⟩ | ⟨h1, h2⟩ <;>
        cases hcov : i.cov3D_precomp <;>
          simp [GaussianRasterizer.forward, GaussianRasterizer.validateAndNormalize,
            hc1, hc2, h1, h2, hcov, Option.isSome_iff_ne_none, Option.isNone_iff_eq_none]

/-- A facade input supplying scales but not rotations, with covariance
precomp absent. -/
def halfPairNoCov : FacadeInput :=
  { facadeInputBase with rotations := none }

/-- A facade input supplying scales but not rotations, with covariance
precomp present. -/
def halfPairWithCov : FacadeInput :=
  { facadeInputBase with rotations := none, cov3D_precomp := some (sampleTensor 8) }

/-- Witness for C10 at concrete inputs: a partial scale/rotation pair raises
the covariance violation both without and with `cov3D_precomp`. -/
theorem C10_half_pair_rejected_witness :
    (GaussianRasterizer.forward okNativeFwd okSave (sampleSettings false) halfPairNoCov =
      (Except.error covContractError, []))
    ∧ (GaussianRasterizer.forward okNativeFwd okSave (sampleSettings false) halfPairWithCov =
      (Except.error covContractError, [])) :=
  ⟨(C10_half_pair_rejected okNativeFwd okSave (sampleSettings false) halfPairNoCov
      (Or.inl ⟨by simp [halfPairNoCov, facadeInputBase], rfl⟩)).2
      (Or.inl ⟨by simp [halfPairNoCov, facadeInputBase], rfl⟩),
   (C10_half_pair_rejected okNativeFwd okSave (sampleSettings false) halfPairWithCov
      (Or.inl ⟨by simp [halfPairWithCov, facadeInputBase], rfl⟩)).2
      (Or.inl ⟨by simp [halfPairWithCov, facadeInputBase], rfl⟩)⟩

/-- Claim C9: when validation passes, the facade delegates to the
differentiable operator on a fully concrete input (the operator's input type
carries no optional marker, so it never receives a language-level None), in
which every omitted optional argument among (shs, colors_precomp, scales,
rotations, cov3D_precomp, camerapos, camerarot) has been replaced by the
explicit empty-sentinel tensor and every supplied one is passed through
unchanged. -/
theorem C9_empty_sentinel_substitution
    (nativeFwd : List NativeArg → Except PyErr NativeFwdOut)
    (torchSave : String → List NativeArg → Except PyErr Unit)
    (rs : GaussianRasterizationSettings) (i : FacadeInput) (fi : FwdInput)
    (h : GaussianRasterizer.validateAndNormalize rs i = Except.ok fi) :
    GaussianRasterizer.forward nativeFwd torchSave rs i =
      RasterizeGaussians.forward nativeFwd torchSave fi
    ∧ fi.means3D = i.means3D ∧ fi.means2D = i.means2D
    ∧ fi.opacities = i.opacities ∧ fi.raster_settings = rs
    ∧ (i.shs = none → fi.sh = emptyTensor)
    ∧ (∀ t, i.shs = some t → fi.sh = t)
    ∧ (i.colors_precomp = none → fi.colors_precomp = emptyTensor)
    ∧ (∀ t, i.colors_precomp = some t → fi.colors_precomp = t)
    ∧ (i.scales = none → fi.scales = emptyTensor)
    ∧ (∀ t, i.scales = some t → fi.scales = t)
    ∧ (i.rotations = none → fi.rotations = emptyTensor)
    ∧ (∀ t, i.rotations = some t → fi.rotations = t)
    ∧ (i.cov3D_precomp = none → fi.cov3Ds_precomp = emptyTensor)
    ∧ (∀ t, i.cov3D_precomp = some t → fi.cov3Ds_precomp = t)
    ∧ (i.camerapos = none → fi.camerapos = emptyTensor)
    ∧ (∀ t, i.camerapos = some t → fi.camerapos = t)
    ∧ (i.camerarot = none → fi.camerarot = emptyTensor)
    ∧ (∀ t, i.camerarot = some t → fi.camerarot = t) := by
  refine ⟨by simp [GaussianRasterizer.forward, h], ?_⟩
  unfold GaussianRasterizer.validateAndNormalize at h
  by_cases h1 : ((i.shs.isNone && i.colors_precomp.isNone)
      || (i.shs.isSome && i.colors_precomp.isSome)) = true
  · rw [if_pos h1] at h
    exact absurd h (by simp)
  · rw [if_neg h1] at h
    by_cases h2 : (((i.scales.isNone || i.rotations.isNone) && i.cov3D_precomp.isNone)
        || ((i.scales.isSome || i.rotations.isSome) && i.cov3D_precomp.isSome)) = true
    · rw [if_pos h2] at h
      exact absurd h (by simp)
    · rw [if_neg h2] at h
      injection h with hfi
      subst hfi
      refine ⟨rfl, rfl, rfl, rfl, ?_⟩
      refine ⟨fun hs => by rw [hs]; rfl, fun t ht => by rw [ht]; rfl, ?_⟩
      refine ⟨fun hs => by rw [hs]; rfl, fun t ht => by rw [ht]; rfl, ?_⟩
      refine ⟨fun hs => by rw [hs]; rfl, fun t ht => by rw [ht]; rfl, ?_⟩
      refine ⟨fun hs => by rw [hs]; rfl, fun t ht => by rw [ht]; rfl, ?_⟩
      refine ⟨fun hs => by rw [hs]; rfl, fun t ht => by rw [ht]; rfl, ?_⟩
      refine ⟨fun hs => by rw [hs]; rfl, fun t ht => by rw [ht]; rfl, ?_⟩
      exact ⟨fun hs => by rw [hs]; rfl, fun t ht => by rw [ht]; rfl⟩

/-- The normalized operator input produced by the facade for
`facadeInputBase`: supplied tensors passed through, omitted ones replaced by
the empty sentinel. -/
def normalizedBase : FwdInput :=
  { means3D := sampleTensor 1
    means2D := sampleTensor 2
    sh := sampleTensor 3
    colors_precomp := emptyTensor
    opacities := sampleTensor 5
    scales := sampleTensor 6
    rotations := sampleTensor 7
    cov3Ds_precomp := emptyTensor
    camerapos := emptyTensor
    camerarot := emptyTensor
    raster_settings := sampleSettings false }

/-- Witness for C9 at a concrete input: the facade on `facadeInputBase`
delegates to the operator on `normalizedBase`, whose omitted optionals hold
the empty sentinel. -/
theorem C9_empty_sentinel_substitution_witness :
    GaussianRasterizer.forward okNativeFwd okSave (sampleSettings false) facadeInputBase =
      RasterizeGaussians.forward okNativeFwd okSave normalizedBase
    ∧ normalizedBase.colors_precomp = emptyTensor
    ∧ normalizedBase.cov3Ds_precomp = emptyTensor
    ∧ normalizedBase.camerapos = emptyTensor
    ∧ normalizedBase.camerarot = emptyTensor
    ∧ normalizedBase.sh = sampleTensor 3 := by
  obtain ⟨hA, _, _, _, _, _, hsh, hcol, _, _, _, _, _, hcov, _, hpos, _, hrot, _⟩ :=
    C9_empty_sentinel_substitution okNativeFwd okSave (sampleSettings false)
      facadeInputBase normalizedBase rfl
  exact ⟨hA, hcol rfl, hcov rfl, hpos rfl, hrot rfl, hsh (sampleTensor 3) rfl⟩

/-- Claim C3: the debug snapshot policy.  When debug mode is on and the native
call raises, forward first invokes torch.save on the host-resident deep copy
of the pre-call argument tuple under the fixed name "snapshot_fw.dump"
("snapshot_bw.dump" for backward), emits the diagnostic message, and re-raises
the original exception unmodified (every tensor in the persisted copy lives on
the cpu device); when debug mode is off, the exception propagates and the
trace contains no save effect. -/
theorem C3_debug_snapshot_policy
    (nativeFwd : List NativeArg → Except PyErr NativeFwdOut)
    (nativeBwd : List NativeArg → Except PyErr NativeBwdOut)
    (torchSave : String → List NativeArg → Except PyErr Unit)
    (i : FwdInput) (ctx : Ctx)
    (grad_out_color grad_out_radii grad_out_depth : Tensor) (ex : PyErr) :
    (i.raster_settings.debug = true →
      nativeFwd (fwdArgs i) = Except.error ex →
      torchSave "snapshot_fw.dump" (cpu_deep_copy_tuple (fwdArgs i)) = Except.ok () →
      RasterizeGaussians.forward nativeFwd torchSave i =
        (Except.error ex,
         [Effect.nativeFwdCall (fwdArgs i),
          Effect.saveFile "snapshot_fw.dump" (cpu_deep_copy_tuple (fwdArgs i)),
          Effect.printMsg fwdDiagnosticMsg])
      ∧ hostResident (cpu_deep_copy_tuple (fwdArgs i)))
    ∧ (ctx.raster_settings.debug = true →
      nativeBwd (bwdArgs ctx grad_out_color grad_out_depth) = Except.error ex →
      torchSave "snapshot_bw.dump"
        (cpu_deep_copy_tuple (bwdArgs ctx grad_out_color grad_out_depth)) = Except.ok () →
      RasterizeGaussians.backward nativeBwd torchSave ctx
        grad_out_color grad_out_radii grad_out_depth =
        (Except.error ex,
         [Effect.nativeBwdCall (bwdArgs ctx grad_out_color grad_out_depth),
          Effect.saveFile "snapshot_bw.dump"
            (cpu_deep_copy_tuple (bwdArgs ctx grad_out_color grad_out_depth)),
          Effect.printMsg bwdDiagnosticMsg])
      ∧ hostResident (cpu_deep_copy_tuple (bwdArgs ctx grad_out_color grad_out_depth)))
    ∧ (i.raster_settings.debug = false →
      nativeFwd (fwdArgs i) = Except.error ex →
      RasterizeGaussians.forward nativeFwd torchSave i =
        (Except.error ex, [Effect.nativeFwdCall (fwdArgs i)]))
    ∧ (ctx.raster_settings.debug = false →
      nativeBwd (bwdArgs ctx grad_out_color grad_out_depth) = Except.error ex →
      RasterizeGaussians.backward nativeBwd torchSave ctx
        grad_out_color grad_out_radii grad_out_depth =
        (Except.error ex,
         [Effect.nativeBwdCall (bwdArgs ctx grad_out_color grad_out_depth)])) := by
  refine ⟨?_, ?_, ?_, ?_⟩
  · intro hb hn hs
    refine ⟨?_, cpu_deep_copy_tuple_hostResident _⟩
    unfold RasterizeGaussians.forward
    simp [hb, hn, hs]
  · intro hb hn hs
    refine ⟨?_, cpu_deep_copy_tuple_hostResident _⟩
    unfold RasterizeGaussians.backward
    simp [hb, hn, hs]
  · intro hb hn
    unfold RasterizeGaussians.forward
    simp [hb, hn]
  · intro hb hn
    unfold RasterizeGaussians.backward
    simp [hb, hn]

/-- Witness for C3 at concrete inputs, exercising all four cases: forward and
backward with debug on (native failure snapshotted, message printed, original
error re-raised) and with debug off (error propagates, no save effect). -/
theorem C3_debug_snapshot_policy_witness :
    (RasterizeGaussians.forward failNativeFwd okSave (sampleFwdInput true) =
      (Except.error (PyErr.native 3),
       [Effect.nativeFwdCall (fwdArgs (sampleFwdInput true)),
        Effect.saveFile "snapshot_fw.dump"
          (cpu_deep_copy_tuple (fwdArgs (sampleFwdInput true))),
        Effect.printMsg fwdDiagnosticMsg]))
    ∧ (RasterizeGaussians.backward failNativeBwd okSave sampleCtx
        (sampleTensor 60) (sampleTensor 61) (sampleTensor 62) =
      (Except.error (PyErr.native 4),
       [Effect.nativeBwdCall (bwdArgs sampleCtx (sampleTensor 60) (sampleTensor 62)),
        Effect.saveFile "snapshot_bw.dump"
          (cpu_deep_copy_tuple (bwdArgs sampleCtx (sampleTensor 60) (sampleTensor 62))),
        Effect.printMsg bwdDiagnosticMsg]))
    ∧ (RasterizeGaussians.forward failNativeFwd okSave (sampleFwdInput false) =
      (Except.error (PyErr.native 3),
       [Effect.nativeFwdCall (fwdArgs (sampleFwdInput false))]))
    ∧ (RasterizeGaussians.backward failNativeBwd okSave sampleCtxNoDebug
        (sampleTensor 60) (sampleTensor 61) (sampleTensor 62) =
      (Except.error (PyErr.native 4),
       [Effect.nativeBwdCall (bwdArgs sampleCtxNoDebug (sampleTensor 60) (sampleTensor 62))])) :=
  ⟨((C3_debug_snapshot_policy failNativeFwd failNativeBwd okSave (sampleFwdInput true)
      sampleCtx (sampleTensor 60) (sampleTensor 61) (sampleTensor 62)
      (PyErr.native 3)).1 rfl rfl rfl).1,
   ((C3_debug_snapshot_policy failNativeFwd failNativeBwd okSave (sampleFwdInput true)
      sampleCtx (sampleTensor 60) (sampleTensor 61) (sampleTensor 62)
      (PyErr.native 4)).2.1 rfl rfl rfl).1,
   (C3_debug_snapshot_policy failNativeFwd failNativeBwd okSave (sampleFwdInput false)
      sampleCtxNoDebug (sampleTensor 60) (sampleTensor 61) (sampleTensor 62)
      (PyErr.native 3)).2.2.1 rfl rfl,
   (C3_debug_snapshot_policy failNativeFwd failNativeBwd okSave (sampleFwdInput false)
      sampleCtxNoDebug (sampleTensor 60) (sampleTensor 61) (sampleTensor 62)
      (PyErr.native 4)).2.2.2 rfl rfl⟩

/-- A native forward entry point whose result depends on the final (debug)
element of its argument tuple. -/
def debugSensitiveNativeFwd : List NativeArg → Except PyErr NativeFwdOut :=
  fun args =>
    if args.getLast? = some (NativeArg.bool true) then
      Except.ok sampleNativeFwdOut
    else
      Except.ok { sampleNativeFwdOut with color := sampleTensor 99 }

/-- Claim C4 is false as stated: the debug flag is itself forwarded to the
native entry point as the last element of the argument tuple, so with the same
native function of its arguments, two runs that differ only in the debug flag
can return different images.  Here the two inputs agree except for the debug
flag, yet the rendered color output differs. -/
theorem C4_counterexample :
    sampleFwdInput true = setDebug (sampleFwdInput false) true
    ∧ (RasterizeGaussians.forward debugSensitiveNativeFwd okSave (sampleFwdInput true)).1 =
        Except.ok (mkCtx (sampleFwdInput true) sampleNativeFwdOut,
          { color := sampleTensor 20, radii := sampleTensor 21, depth := sampleTensor 25 })
    ∧ (RasterizeGaussians.forward debugSensitiveNativeFwd okSave (sampleFwdInput false)).1 =
        Except.ok (mkCtx (sampleFwdInput false)
            { sampleNativeFwdOut with color := sampleTensor 99 },
          { color := sampleTensor 99, radii := sampleTensor 21, depth := sampleTensor 25 })
    ∧ ({ color := sampleTensor 20, radii := sampleTensor 21, depth := sampleTensor 25 } : FwdOutput) ≠
        { color := sampleTensor 99, radii := sampleTensor 21, depth := sampleTensor 25 } :=
  ⟨rfl, rfl, rfl, by decide⟩

/-- Claim C4 amended: the two native argument tuples differ only in their
final (debug) element, and whenever the native entry point returns the same
successful result on both tuples — i.e. its output does not depend on the
forwarded debug argument — the debug-enabled and debug-disabled runs return
numerically identical outputs (image, radii, depth); debug mode then only adds
snapshotting. -/
theorem C4_amended_debug_invariance
    (nativeFwd : List NativeArg → Except PyErr NativeFwdOut)
    (torchSave : String → List NativeArg → Except PyErr Unit)
    (i : FwdInput) (o : NativeFwdOut)
    (hT : nativeFwd (fwdArgs (setDebug i true)) = Except.ok o)
    (hF : nativeFwd (fwdArgs (setDebug i false)) = Except.ok o) :
    (fwdArgs (setDebug i true)).dropLast = (fwdArgs (setDebug i false)).dropLast
    ∧ (RasterizeGaussians.forward nativeFwd torchSave (setDebug i true)).1 =
        Except.ok (mkCtx (setDebug i true) o,
          { color := o.color, radii := o.radii, depth := o.depth })
    ∧ (RasterizeGaussians.forward nativeFwd torchSave (setDebug i false)).1 =
        Except.ok (mkCtx (setDebug i false) o,
          { color := o.color, radii := o.radii, depth := o.depth }) := by
  refine ⟨rfl, ?_, ?_⟩
  · unfold RasterizeGaussians.forward
    simp [show (setDebug i true).raster_settings.debug = true from rfl, hT]
  · unfold RasterizeGaussians.forward
    simp [show (setDebug i false).raster_settings.debug = false from rfl, hF]

/-- Witness for the amended C4 at a concrete input with a debug-insensitive
native function. -/
theorem C4_amended_debug_invariance_witness :
    (fwdArgs (setDebug (sampleFwdInput true) true)).dropLast =
      (fwdArgs (setDebug (sampleFwdInput true) false)).dropLast
    ∧ (RasterizeGaussians.forward okNativeFwd okSave (setDebug (sampleFwdInput true) true)).1 =
        Except.ok (mkCtx (setDebug (sampleFwdInput true) true) sampleNativeFwdOut,
          { color := sampleTensor 20, radii := sampleTensor 21, depth := sampleTensor 25 })
    ∧ (RasterizeGaussians.forward okNativeFwd okSave (setDebug (sampleFwdInput true) false)).1 =
        Except.ok (mkCtx (setDebug (sampleFwdInput true) false) sampleNativeFwdOut,
          { color := sampleTensor 20, radii := sampleTensor 21, depth := sampleTensor 25 }) :=
  C4_amended_debug_invariance okNativeFwd okSave (sampleFwdInput true) sampleNativeFwdOut rfl rfl

/-- Claim C5 is false as stated: with debug enabled, a native failure
`PyErr.native 3` followed by a failing snapshot write `PyErr.saveFail 7`
surfaces the snapshot failure to the caller, not the original native-call
exception — the call to torch.save is not guarded. -/
theorem C5_counterexample :
    failNativeFwd (fwdArgs (sampleFwdInput true)) = Except.error (PyErr.native 3)
    ∧ (RasterizeGaussians.forward failNativeFwd failSave (sampleFwdInput true)).1 =
        Except.error (PyErr.saveFail 7)
    ∧ PyErr.saveFail 7 ≠ PyErr.native 3 :=
  ⟨rfl, rfl, by decide⟩

/-- Claim C5 amended: in debug mode after a native failure, the original
exception is re-raised unchanged exactly when the snapshot write succeeds; if
the snapshot write itself raises, the write's exception — not the original
native failure — is what propagates to the caller, for forward and backward
alike. -/
theorem C5_amended_snapshot_not_best_effort
    (nativeFwd : List NativeArg → Except PyErr NativeFwdOut)
    (nativeBwd : List NativeArg → Except PyErr NativeBwdOut)
    (torchSave : String → List NativeArg → Except PyErr Unit)
    (i : FwdInput) (ctx : Ctx)
    (grad_out_color grad_out_radii grad_out_depth : Tensor) (ex : PyErr) :
    (i.raster_settings.debug = true →
      nativeFwd (fwdArgs i) = Except.error ex →
      ((torchSave "snapshot_fw.dump" (cpu_deep_copy_tuple (fwdArgs i)) = Except.ok () →
        (RasterizeGaussians.forward nativeFwd torchSave i).1 = Except.error ex)
      ∧ (∀ esave : PyErr,
          torchSave "snapshot_fw.dump" (cpu_deep_copy_tuple (fwdArgs i)) =
            Except.error esave →
          (RasterizeGaussians.forward nativeFwd torchSave i).1 = Except.error esave)))
    ∧ (ctx.raster_settings.debug = true →
      nativeBwd (bwdArgs ctx grad_out_color grad_out_depth) = Except.error ex →
      ((torchSave "snapshot_bw.dump"
          (cpu_deep_copy_tuple (bwdArgs ctx grad_out_color grad_out_depth)) = Except.ok () →
        (RasterizeGaussians.backward nativeBwd torchSave ctx
          grad_out_color grad_out_radii grad_out_depth).1 = Except.error ex)
      ∧ (∀ esave : PyErr,
          torchSave "snapshot_bw.dump"
            (cpu_deep_copy_tuple (bwdArgs ctx grad_out_color grad_out_depth)) =
            Except.error esave →
          (RasterizeGaussians.backward nativeBwd torchSave ctx
            grad_out_color grad_out_radii grad_out_depth).1 = Except.error esave))) := by
  constructor
  · intro hb hn
    constructor
    · intro hs
      unfold RasterizeGaussians.forward
      simp [hb, hn, hs]
    · intro esave hs
      unfold RasterizeGaussians.forward
      simp [hb, hn, hs]
  · intro hb hn
    constructor
    · intro hs
      unfold RasterizeGaussians.backward
      simp [hb, hn, hs]
    · intro esave hs
      unfold RasterizeGaussians.backward
      simp [hb, hn, hs]

/-- Witness for the amended C5 at concrete inputs, exercising all four cases:
forward and backward with a succeeding snapshot write (original error kept)
and with a failing snapshot write (save error surfaces). -/
theorem C5_amended_snapshot_not_best_effort_witness :
    (RasterizeGaussians.forward failNativeFwd okSave (sampleFwdInput true)).1 =
      Except.error (PyErr.native 3)
    ∧ (RasterizeGaussians.forward failNativeFwd failSave (sampleFwdInput true)).1 =
      Except.error (PyErr.saveFail 7)
    ∧ (RasterizeGaussians.backward failNativeBwd okSave sampleCtx
        (sampleTensor 70) (sampleTensor 71) (sampleTensor 72)).1 =
      Except.error (PyErr.native 4)
    ∧ (RasterizeGaussians.backward failNativeBwd failSave sampleCtx
        (sampleTensor 70) (sampleTensor 71) (sampleTensor 72)).1 =
      Except.error (PyErr.saveFail 7) :=
  ⟨((C5_amended_snapshot_not_best_effort failNativeFwd failNativeBwd okSave
      (sampleFwdInput true) sampleCtx (sampleTensor 70) (sampleTensor 71) (sampleTensor 72)
      (PyErr.native 3)).1 rfl rfl).1 rfl,
   ((C5_amended_snapshot_not_best_effort failNativeFwd failNativeBwd failSave
      (sampleFwdInput true) sampleCtx (sampleTensor 70) (sampleTensor 71) (sampleTensor 72)
      (PyErr.native 3)).1 rfl rfl).2 (PyErr.saveFail 7) rfl,
   ((C5_amended_snapshot_not_best_effort failNativeFwd failNativeBwd okSave
      (sampleFwdInput true) sampleCtx (sampleTensor 70) (sampleTensor 71) (sampleTensor 72)
      (PyErr.native 4)).2 rfl rfl).1 rfl,
   ((C5_amended_snapshot_not_best_effort failNativeFwd failNativeBwd failSave
      (sampleFwdInput true) sampleCtx (sampleTensor 70) (sampleTensor 71) (sampleTensor 72)
      (PyErr.native 4)).2 rfl rfl).2 (PyErr.saveFail 7) rfl⟩

end DGR
